import Mathlib

/-!
A shallow embedding of `src/benchmarks/run-benchmarks.py`, the token-reduction
benchmark runner, and proofs of the claims of the specification about it.

Modelling conventions:
* The external tokenizer (`tiktoken`) is an opaque deterministic function
  `model → text → token count`, passed as a parameter `tok`.
* The file system is a parameter `readF : String → Option String` giving the
  text content of a path (`none` = the read raises: missing file, permission
  or decode error).  Scenario-descriptor parsing (`json.loads` of the file
  plus the dictionary lookups) is a parameter
  `parse : String → Option Scenario` (`none` = the read or parse raises).
* Python real arithmetic is modelled exactly over `Rat`; the Python division
  operator, which raises `ZeroDivisionError` on a zero denominator, is
  modelled by `pyDiv` returning `Except`.
* An unhandled Python exception terminates the interpreter with a non-zero
  status; it is modelled as `Outcome.crashed` with the name of the exception,
  distinct from every `Outcome.exited code`.
-/

namespace Benchmarks

/-- A parsed scenario descriptor: the JSON record with fields `name`,
`description`, `baseline.files`, `skills.files`, `expectedReduction`
read by `run_scenario`. -/
structure Scenario where
  name : String
  description : String
  baselineFiles : List String
  skillsFiles : List String
  expectedReduction : Rat
deriving Repr, DecidableEq

/-- The dictionary returned by `run_scenario` (one per evaluated scenario). -/
structure ScenarioResult where
  scenario : String
  description : String
  baseline_tokens : Nat
  skill_tokens : Nat
  reduction_percentage : Rat
  expected_reduction : Rat
  meets_expectation : Bool
deriving Repr, DecidableEq

/-- The `summary` record printed by `print_results` and serialized by
`export_json`. -/
structure RunSummary where
  total_scenarios : Nat
  passed : Nat
  average_reduction : Rat
deriving Repr, DecidableEq

/-- The whole JSON document written by `export_json`. -/
structure ExportDoc where
  results : List ScenarioResult
  summary : RunSummary
deriving Repr, DecidableEq

/-- Python true division: raises `ZeroDivisionError` on a zero denominator. -/
def pyDiv (a b : Rat) : Except String Rat :=
  if b = 0 then Except.error "ZeroDivisionError" else Except.ok (a / b)

/-- `count_tokens(file_path, model="gpt-4")`: read the file, encode with the
tokenizer for `model`, return the token count.  `none` models the raised
exception when the read fails. -/
def count_tokens (tok : String → String → Nat) (readF : String → Option String)
    (file_path : String) (model : String) : Option Nat :=
  (readF file_path).map (fun content => tok model content)

/-- `sum(count_tokens(f) for f in files)`: the sum of the per-file token
counts, every call using the default model `"gpt-4"`; the first failing
file makes the whole sum raise (`none`). -/
def sum_file_tokens (tok : String → String → Nat)
    (readF : String → Option String) : List String → Option Nat
  | [] => some 0
  | f :: fs =>
    match count_tokens tok readF f "gpt-4", sum_file_tokens tok readF fs with
    | some n, some m => some (n + m)
    | _, _ => none

/-- `run_scenario(scenario_file)`: parse the descriptor, sum baseline and
skill token counts, compute the reduction percentage
(`((baseline - skill) / baseline) * 100 if baseline > 0 else 0`) and the
pass flag (`reduction >= expectedReduction`).  `none` models any raised
exception (unreadable descriptor or referenced file). -/
def run_scenario (tok : String → String → Nat)
    (parse : String → Option Scenario) (readF : String → Option String)
    (scenario_file : String) : Option ScenarioResult :=
  match parse scenario_file with
  | none => none
  | some sc =>
    match sum_file_tokens tok readF sc.baselineFiles,
          sum_file_tokens tok readF sc.skillsFiles with
    | some baseline_tokens, some skill_tokens =>
      let reduction : Rat :=
        if baseline_tokens > 0 then
          (((baseline_tokens : Rat) - (skill_tokens : Rat))
            / (baseline_tokens : Rat)) * 100
        else 0
      some {
        scenario := sc.name
        description := sc.description
        baseline_tokens := baseline_tokens
        skill_tokens := skill_tokens
        reduction_percentage := reduction
        expected_reduction := sc.expectedReduction
        meets_expectation := decide (sc.expectedReduction ≤ reduction) }
    | _, _ => none

/-- The scenario loop of `main`: evaluate each file in order; a success
appends its result, a failure logs `"Error running scenario <file>"` (the
exception text is elided) and continues with the rest.  Returns the result
list and the error log, both in evaluation order. -/
def run_all (tok : String → String → Nat) (parse : String → Option Scenario)
    (readF : String → Option String) : List String → List ScenarioResult × List String
  | [] => ([], [])
  | f :: fs =>
    match run_scenario tok parse readF f with
    | some r =>
      let rest := run_all tok parse readF fs
      (r :: rest.1, rest.2)
    | none =>
      let rest := run_all tok parse readF fs
      (rest.1, ("Error running scenario " ++ f) :: rest.2)

/-- `print_results(results)`: the per-scenario blocks are printed first, then
`avg_reduction = sum(...) / len(results)` — a `ZeroDivisionError` when the
list is empty — then the summary block.  The value returned is the summary
data that gets printed. -/
def print_results (results : List ScenarioResult) : Except String RunSummary := do
  let avg ← pyDiv (results.map (fun r => r.reduction_percentage)).sum
    ((results.length : Nat) : Rat)
  Except.ok {
    total_scenarios := results.length
    passed := results.countP (fun r => r.meets_expectation)
    average_reduction := avg }

/-- `export_json(results, output_file)`: build the document with the result
list and the summary (`total_scenarios`, `passed`,
`average_reduction = sum(...) / len(results)`, a `ZeroDivisionError` when
empty) to be serialized. -/
def export_json (results : List ScenarioResult) : Except String ExportDoc := do
  let avg ← pyDiv (results.map (fun r => r.reduction_percentage)).sum
    ((results.length : Nat) : Rat)
  Except.ok {
    results := results
    summary := {
      total_scenarios := results.length
      passed := results.countP (fun r => r.meets_expectation)
      average_reduction := avg } }

/-- How a run of `main` terminates: a `sys.exit(code)`, or an unhandled
exception (which makes the interpreter exit non-zero). -/
inductive Outcome where
  | exited (code : Nat)
  | crashed (msg : String)
deriving Repr, DecidableEq

/-- Everything observable about one run of `main`. -/
structure MainOutput where
  outcome : Outcome
  /-- the per-scenario report blocks printed by `print_results`
  (`none` when `print_results` is never reached) -/
  reportBlocks : Option (List ScenarioResult)
  /-- the summary block, `none` when it was never printed -/
  summaryShown : Option RunSummary
  /-- the output path and document written by `export_json`, `none` when no
  file was produced -/
  exported : Option (String × ExportDoc)
  /-- the console diagnostics (fatal discovery messages or per-scenario
  error lines) -/
  errorLog : List String
deriving Repr, DecidableEq

/-- `main()`: `dirExists` models `scenarios_dir.exists()`, `listing` the
names matched by `scenarios_dir.glob("*.json")` in the order the directory
returns them.  Discovery sorts the listing; a missing directory or an empty
listing is fatal (`sys.exit(1)` after a diagnostic).  Then every scenario is
run, the report printed, the JSON exported to `benchmarks/results.json`, and
the process exits `0` iff all results have a true pass flag. -/
def main (tok : String → String → Nat) (parse : String → Option Scenario)
    (readF : String → Option String) (dirExists : Bool)
    (listing : List String) : MainOutput :=
  if dirExists = false then
    { outcome := Outcome.exited 1
      reportBlocks := none
      summaryShown := none
      exported := none
      errorLog := ["Error: Scenarios directory not found: benchmarks/scenarios"] }
  else
    let scenario_files := List.insertionSort (fun a b : String => a ≤ b) listing
    if scenario_files.isEmpty then
      { outcome := Outcome.exited 1
        reportBlocks := none
        summaryShown := none
        exported := none
        errorLog := ["Error: No scenario files found in benchmarks/scenarios"] }
    else
      let outcomes := run_all tok parse readF scenario_files
      match print_results outcomes.1 with
      | Except.error msg =>
        { outcome := Outcome.crashed msg
          reportBlocks := some outcomes.1
          summaryShown := none
          exported := none
          errorLog := outcomes.2 }
      | Except.ok summ =>
        match export_json outcomes.1 with
        | Except.error msg =>
          { outcome := Outcome.crashed msg
            reportBlocks := some outcomes.1
            summaryShown := some summ
            exported := none
            errorLog := outcomes.2 }
        | Except.ok doc =>
          { outcome := Outcome.exited
              (if outcomes.1.all (fun r => r.meets_expectation) then 0 else 1)
            reportBlocks := some outcomes.1
            summaryShown := some summ
            exported := some ("benchmarks/results.json", doc)
            errorLog := outcomes.2 }

/-- The set of successfully evaluated scenarios of a run: the `results` list
`main` accumulates (empty when discovery fails before any evaluation). -/
def evaluated_results (tok : String → String → Nat)
    (parse : String → Option Scenario) (readF : String → Option String)
    (dirExists : Bool) (listing : List String) : List ScenarioResult :=
  if dirExists = false then []
  else (run_all tok parse readF
    (List.insertionSort (fun a b : String => a ≤ b) listing)).1


/-! Concrete environments used by the witnesses. -/

/-- A concrete tokenizer for witnesses: a lookup table on the text. -/
def tokW : String → String → Nat :=
  fun _ text => if text = "aaaa" then 4 else if text = "aa" then 2 else 0

/-- A tokenizer that agrees with `tokW` on model "gpt-4" and differs on
every other model identifier. -/
def tokOther : String → String → Nat :=
  fun model text => if model = "gpt-4" then tokW model text else tokW model text + 7

/-- A concrete scenario: one baseline file, one skill file, threshold 50%. -/
def scW : Scenario := ⟨"A", "demo", ["b1"], ["s1"], 50⟩

/-- A parser knowing only the descriptor `"a.json"`. -/
def parseW : String → Option Scenario :=
  fun f => if f = "a.json" then some scW else none

/-- File contents for the two files of `scW`; everything else is unreadable. -/
def readW : String → Option String :=
  fun p => if p = "b1" then some "aaaa" else if p = "s1" then some "aa" else none

/-- Agrees with `readW` on the two files of `scW`, differs elsewhere. -/
def readW2 : String → Option String :=
  fun p => if p = "b1" then some "aaaa" else if p = "s1" then some "aa" else some "x"

/-- The result of evaluating `scW` under `tokW`, `readW`: 4 baseline tokens,
2 skill tokens, a 50% reduction meeting the 50% threshold. -/
def resW : ScenarioResult := ⟨"A", "demo", 4, 2, 50, 50, true⟩

/-- Evaluating the concrete scenario `scW` yields exactly `resW`. -/
theorem run_scenario_W : run_scenario tokW parseW readW "a.json" = some resW := by
  have h1 : parseW "a.json" = some scW := rfl
  have hb : sum_file_tokens tokW readW scW.baselineFiles = some 4 := rfl
  have hs : sum_file_tokens tokW readW scW.skillsFiles = some 2 := rfl
  unfold run_scenario
  simp only [h1, hb, hs]
  norm_num [scW, resW]

/-- A scenario referencing no files at all (its baseline sum is 0). -/
def scEmpty : Scenario := ⟨"E", "empty", [], [], 0⟩

/-- A parser that fails on `"bad.json"` and yields `scEmpty` elsewhere. -/
def parseSkip : String → Option Scenario :=
  fun f => if f = "bad.json" then none else some scEmpty

/-- The result of evaluating `scEmpty` (zero baseline, reduction 0, pass). -/
def resEmpty : ScenarioResult := ⟨"E", "empty", 0, 0, 0, 0, true⟩

/-- Under `parseSkip` the descriptor `"bad.json"` fails to evaluate. -/
theorem run_scenario_bad : run_scenario tokW parseSkip readW "bad.json" = none := rfl

/-- Every other descriptor evaluates to `resEmpty` under `parseSkip`. -/
theorem run_scenario_E : run_scenario tokW parseSkip readW "a.json" = some resEmpty := by
  decide

/-! Helper lemmas shared by the claim proofs. -/

/-- `run_all` distributes over list append: results and error log of the two
halves concatenate in order. -/
theorem run_all_append (tok : String → String → Nat)
    (parse : String → Option Scenario) (readF : String → Option String)
    (xs ys : List String) :
    run_all tok parse readF (xs ++ ys) =
      ((run_all tok parse readF xs).1 ++ (run_all tok parse readF ys).1,
       (run_all tok parse readF xs).2 ++ (run_all tok parse readF ys).2) := by
  induction xs with
  | nil => simp [run_all]
  | cons f fs ih =>
    simp only [List.cons_append, run_all]
    cases run_scenario tok parse readF f <;> simp [ih]

/-- C2: for every evaluated scenario, `reduction_percentage` equals
`((baselineTokens - skillTokens) / baselineTokens) * 100` when
`baselineTokens > 0`, and equals `0` when `baselineTokens = 0`, so no
division by zero occurs. -/
theorem c2_reduction_percentage_formula (tok : String → String → Nat)
    (parse : String → Option Scenario) (readF : String → Option String)
    (f : String) (r : ScenarioResult)
    (h : run_scenario tok parse readF f = some r) :
    (0 < r.baseline_tokens →
      r.reduction_percentage =
        (((r.baseline_tokens : Rat) - (r.skill_tokens : Rat))
          / (r.baseline_tokens : Rat)) * 100) ∧
    (r.baseline_tokens = 0 → r.reduction_percentage = 0) := by
  unfold run_scenario at h
  split at h
  · exact absurd h (by simp)
  · rename_i sc hp
    split at h
    · rename_i b s hb hs
      simp only [Option.some.injEq] at h
      subst h
      constructor
      · intro hpos
        simp only at hpos ⊢
        rw [if_pos hpos]
      · intro hz
        simp only at hz ⊢
        simp [hz]
    · exact absurd h (by simp)

/-- Witness for C2 at the concrete scenario `scW`. -/
theorem c2_witness :
    run_scenario tokW parseW readW "a.json" = some resW ∧
    ((0 < resW.baseline_tokens →
      resW.reduction_percentage =
        (((resW.baseline_tokens : Rat) - (resW.skill_tokens : Rat))
          / (resW.baseline_tokens : Rat)) * 100) ∧
     (resW.baseline_tokens = 0 → resW.reduction_percentage = 0)) :=
  ⟨run_scenario_W,
   c2_reduction_percentage_formula tokW parseW readW "a.json" resW run_scenario_W⟩

/-- C6: for every evaluated scenario, `meets_expectation` is true iff
`reduction_percentage >= expectedReduction`. -/
theorem c6_meets_expectation_iff (tok : String → String → Nat)
    (parse : String → Option Scenario) (readF : String → Option String)
    (f : String) (r : ScenarioResult)
    (h : run_scenario tok parse readF f = some r) :
    r.meets_expectation = true ↔ r.expected_reduction ≤ r.reduction_percentage := by
  unfold run_scenario at h
  split at h
  · exact absurd h (by simp)
  · rename_i sc hp
    split at h
    · rename_i b s hb hs
      simp only [Option.some.injEq] at h
      subst h
      simp
    · exact absurd h (by simp)

/-- Witness for C6 at the concrete scenario `scW`. -/
theorem c6_witness :
    run_scenario tokW parseW readW "a.json" = some resW ∧
    (resW.meets_expectation = true ↔
      resW.expected_reduction ≤ resW.reduction_percentage) :=
  ⟨run_scenario_W,
   c6_meets_expectation_iff tokW parseW readW "a.json" resW run_scenario_W⟩

/-- C3: a scenario whose evaluation raises is skipped: it contributes no
result (the result list is exactly that of the other scenarios, in order),
an error line naming it is logged, and the remaining scenarios are still
evaluated — the run continues. -/
theorem c3_failed_scenario_skipped (tok : String → String → Nat)
    (parse : String → Option Scenario) (readF : String → Option String)
    (f : String) (xs ys : List String)
    (hf : run_scenario tok parse readF f = none) :
    (run_all tok parse readF (xs ++ f :: ys)).1 =
      (run_all tok parse readF xs).1 ++ (run_all tok parse readF ys).1 ∧
    ("Error running scenario " ++ f) ∈ (run_all tok parse readF (xs ++ f :: ys)).2 := by
  have hsplit := run_all_append tok parse readF xs (f :: ys)
  constructor
  · rw [hsplit]
    simp [run_all, hf]
  · rw [hsplit]
    simp [run_all, hf]

/-- Witness for C3: `"bad.json"` fails to parse between two good scenarios. -/
theorem c3_witness :
    run_scenario tokW parseSkip readW "bad.json" = none ∧
    ((run_all tokW parseSkip readW (["a.json"] ++ "bad.json" :: ["c.json"])).1 =
      (run_all tokW parseSkip readW ["a.json"]).1 ++
        (run_all tokW parseSkip readW ["c.json"]).1 ∧
     ("Error running scenario " ++ "bad.json") ∈
        (run_all tokW parseSkip readW (["a.json"] ++ "bad.json" :: ["c.json"])).2) :=
  ⟨run_scenario_bad,
   c3_failed_scenario_skipped tokW parseSkip readW "bad.json" ["a.json"] ["c.json"]
     run_scenario_bad⟩

/-- Token sums depend only on the reads of the listed files. -/
theorem sum_file_tokens_read_congr (tok : String → String → Nat)
    (read1 read2 : String → Option String) (files : List String)
    (h : ∀ p ∈ files, read1 p = read2 p) :
    sum_file_tokens tok read1 files = sum_file_tokens tok read2 files := by
  induction files with
  | nil => rfl
  | cons f fs ih =>
    have hf : read1 f = read2 f := h f (List.mem_cons_self f fs)
    have ih2 := ih (fun p hp => h p (List.mem_cons_of_mem f hp))
    simp [sum_file_tokens, count_tokens, hf, ih2]

/-- C9: scenario evaluation is a deterministic function of the parsed
descriptor and the contents of the files it references: two runs (over two
file-system states) that parse the descriptor to the same scenario and read
identical content for every referenced file produce identical
`ScenarioResult` records. -/
theorem c9_deterministic_reevaluation (tok : String → String → Nat)
    (parse1 parse2 : String → Option Scenario)
    (read1 read2 : String → Option String) (f : String) (sc : Scenario)
    (hp1 : parse1 f = some sc) (hp2 : parse2 f = some sc)
    (hr : ∀ p ∈ sc.baselineFiles ++ sc.skillsFiles, read1 p = read2 p) :
    run_scenario tok parse1 read1 f = run_scenario tok parse2 read2 f := by
  have hbase :
      sum_file_tokens tok read1 sc.baselineFiles =
        sum_file_tokens tok read2 sc.baselineFiles :=
    sum_file_tokens_read_congr tok read1 read2 sc.baselineFiles
      (fun p hp => hr p (List.mem_append_left _ hp))
  have hskill :
      sum_file_tokens tok read1 sc.skillsFiles =
        sum_file_tokens tok read2 sc.skillsFiles :=
    sum_file_tokens_read_congr tok read1 read2 sc.skillsFiles
      (fun p hp => hr p (List.mem_append_right _ hp))
  unfold run_scenario
  simp only [hp1, hp2, hbase, hskill]

/-- Witness for C9: a second file-system state agreeing on the two files of
`scW` yields the same result. -/
theorem c9_witness :
    parseW "a.json" = some scW ∧
    (∀ p ∈ scW.baselineFiles ++ scW.skillsFiles, readW p = readW2 p) ∧
    run_scenario tokW parseW readW "a.json" = run_scenario tokW parseW readW2 "a.json" :=
  ⟨rfl, by decide,
   c9_deterministic_reevaluation tokW parseW parseW readW readW2 "a.json" scW rfl rfl
     (by decide)⟩

/-- Token sums depend on the tokenizer only through model "gpt-4". -/
theorem sum_file_tokens_tok_congr (tok1 tok2 : String → String → Nat)
    (readF : String → Option String) (files : List String)
    (h : ∀ t, tok1 "gpt-4" t = tok2 "gpt-4" t) :
    sum_file_tokens tok1 readF files = sum_file_tokens tok2 readF files := by
  induction files with
  | nil => rfl
  | cons f fs ih =>
    have hf : count_tokens tok1 readF f "gpt-4" = count_tokens tok2 readF f "gpt-4" := by
      unfold count_tokens
      cases readF f <;> simp [h]
    simp [sum_file_tokens, hf, ih]

/-- C10: scenario evaluation never passes a model argument, so every token
count uses the fixed identifier "gpt-4": two tokenizers that agree on
"gpt-4" (and may differ on every other model) give identical evaluations. -/
theorem c10_fixed_tokenizer_model (tok1 tok2 : String → String → Nat)
    (parse : String → Option Scenario) (readF : String → Option String)
    (f : String)
    (h : ∀ t, tok1 "gpt-4" t = tok2 "gpt-4" t) :
    run_scenario tok1 parse readF f = run_scenario tok2 parse readF f := by
  unfold run_scenario
  cases hp : parse f with
  | none => rfl
  | some sc =>
    simp only [sum_file_tokens_tok_congr tok1 tok2 readF sc.baselineFiles h,
      sum_file_tokens_tok_congr tok1 tok2 readF sc.skillsFiles h]

/-- Witness for C10: `tokOther` agrees with `tokW` on "gpt-4" only, and the
evaluation is unchanged. -/
theorem c10_witness :
    (∀ t, tokW "gpt-4" t = tokOther "gpt-4" t) ∧
    run_scenario tokW parseW readW "a.json" = run_scenario tokOther parseW readW "a.json" :=
  ⟨fun _ => rfl,
   c10_fixed_tokenizer_model tokW tokOther parseW readW "a.json" (fun _ => rfl)⟩

/-- A parser under which every descriptor fails (every scenario raises). -/
def parseNone : String → Option Scenario := fun _ => none

/-- On an empty result list `print_results` raises `ZeroDivisionError`. -/
theorem print_results_nil : print_results [] = Except.error "ZeroDivisionError" := rfl

/-- On a non-empty result list `print_results` prints the summary. -/
theorem print_results_cons (r : ScenarioResult) (rs : List ScenarioResult) :
    print_results (r :: rs) = Except.ok {
      total_scenarios := (r :: rs).length
      passed := (r :: rs).countP (fun x => x.meets_expectation)
      average_reduction := ((r :: rs).map (fun x => x.reduction_percentage)).sum
        / ((((r :: rs).length : Nat)) : Rat) } := by
  simp [print_results, pyDiv, Nat.cast_add_one_ne_zero, Bind.bind, Except.bind]

/-- Whatever document `export_json` produces carries the result list and the
summary computed from it. -/
theorem export_json_ok_inv (rs : List ScenarioResult) (doc : ExportDoc)
    (h : export_json rs = Except.ok doc) :
    doc.results = rs ∧
    doc.summary.total_scenarios = rs.length ∧
    doc.summary.passed = rs.countP (fun r => r.meets_expectation) ∧
    doc.summary.average_reduction =
      (rs.map (fun r => r.reduction_percentage)).sum / (((rs.length : Nat)) : Rat) := by
  unfold export_json pyDiv at h
  split at h
  · simp [Bind.bind, Except.bind] at h
  · simp [Bind.bind, Except.bind] at h
    subst h
    simp

/-- On a non-empty result list `export_json` succeeds with the document. -/
theorem export_json_cons (r : ScenarioResult) (rs : List ScenarioResult) :
    export_json (r :: rs) = Except.ok {
      results := r :: rs
      summary := {
        total_scenarios := (r :: rs).length
        passed := (r :: rs).countP (fun x => x.meets_expectation)
        average_reduction := ((r :: rs).map (fun x => x.reduction_percentage)).sum
          / ((((r :: rs).length : Nat)) : Rat) } } := by
  simp [export_json, pyDiv, Nat.cast_add_one_ne_zero, Bind.bind, Except.bind]

/-- With the directory present, the evaluated results are those of the loop
over the sorted listing. -/
theorem evaluated_results_true (tok : String → String → Nat)
    (parse : String → Option Scenario) (readF : String → Option String)
    (listing : List String) :
    evaluated_results tok parse readF true listing =
      (run_all tok parse readF
        (List.insertionSort (fun a b : String => a ≤ b) listing)).1 := rfl

/-- C1: the process exit code is 0 iff the set of successfully evaluated
scenarios is non-empty and every `ScenarioResult` has `meets_expectation`
true; a fatal discovery failure, a failing scenario, or the empty-results
crash all yield a non-`exited 0` outcome. -/
theorem c1_exit_code_iff (tok : String → String → Nat)
    (parse : String → Option Scenario) (readF : String → Option String)
    (dirExists : Bool) (listing : List String) :
    (main tok parse readF dirExists listing).outcome = Outcome.exited 0 ↔
      (evaluated_results tok parse readF dirExists listing ≠ [] ∧
       ∀ r ∈ evaluated_results tok parse readF dirExists listing,
         r.meets_expectation = true) := by
  cases dirExists with
  | false => simp [main, evaluated_results]
  | true =>
    rw [evaluated_results_true]
    unfold main
    simp only [Bool.true_eq_false, if_false]
    by_cases hempty :
        (List.insertionSort (fun a b : String => a ≤ b) listing).isEmpty = true
    · have hnil : List.insertionSort (fun a b : String => a ≤ b) listing = [] :=
        List.isEmpty_iff.mp hempty
      rw [hnil]
      simp [run_all]
    · rw [if_neg hempty]
      rcases hres :
          (run_all tok parse readF
            (List.insertionSort (fun a b : String => a ≤ b) listing)).1 with _ | ⟨r, rs⟩
      · simp [print_results_nil]
      · simp only [print_results_cons, export_json_cons, Outcome.exited.injEq]
        constructor
        · intro h0
          have hall : ((r :: rs).all fun x => x.meets_expectation) = true := by
            by_contra hq
            rw [if_neg hq] at h0
            exact Nat.one_ne_zero h0
          exact ⟨List.cons_ne_nil r rs, List.all_eq_true.mp hall⟩
        · rintro ⟨hne2, hall2⟩
          rw [if_pos (List.all_eq_true.mpr hall2)]

/-- C4: when discovery finds files but every scenario fails evaluation, the
summary computation divides by `len(results) = 0` and the run dies with an
unhandled `ZeroDivisionError`: no summary is printed and no JSON artifact
is exported; the process terminates via the exception, not `sys.exit`. -/
theorem c4_zero_division_crash (tok : String → String → Nat)
    (parse : String → Option Scenario) (readF : String → Option String)
    (listing : List String)
    (hne : listing ≠ [])
    (hempty : (run_all tok parse readF
      (List.insertionSort (fun a b : String => a ≤ b) listing)).1 = []) :
    (main tok parse readF true listing).outcome = Outcome.crashed "ZeroDivisionError" ∧
    (main tok parse readF true listing).summaryShown = none ∧
    (main tok parse readF true listing).exported = none := by
  have hfs : ¬ (List.insertionSort (fun a b : String => a ≤ b) listing).isEmpty = true := by
    intro hcontra
    have hnil : List.insertionSort (fun a b : String => a ≤ b) listing = [] :=
      List.isEmpty_iff.mp hcontra
    have hperm := List.perm_insertionSort (fun a b : String => a ≤ b) listing
    rw [hnil] at hperm
    exact hne hperm.symm.eq_nil
  unfold main
  simp only [Bool.true_eq_false, if_false]
  rw [if_neg hfs, hempty, print_results_nil]
  exact ⟨rfl, rfl, rfl⟩

/-- C5: a missing scenarios directory or an empty listing terminates the run
immediately with a non-zero exit status after a diagnostic; no report is
printed and no export file is produced. -/
theorem c5_fatal_discovery (tok : String → String → Nat)
    (parse : String → Option Scenario) (readF : String → Option String)
    (dirExists : Bool) (listing : List String)
    (h : dirExists = false ∨ listing = []) :
    (∃ c, (main tok parse readF dirExists listing).outcome = Outcome.exited c ∧ c ≠ 0) ∧
    (main tok parse readF dirExists listing).reportBlocks = none ∧
    (main tok parse readF dirExists listing).summaryShown = none ∧
    (main tok parse readF dirExists listing).exported = none ∧
    (main tok parse readF dirExists listing).errorLog ≠ [] := by
  rcases h with h | h
  · subst h
    exact ⟨⟨1, rfl, by decide⟩, rfl, rfl, rfl, by simp [main]⟩
  · subst h
    cases dirExists with
    | false => exact ⟨⟨1, rfl, by decide⟩, rfl, rfl, rfl, by simp [main]⟩
    | true => exact ⟨⟨1, rfl, by decide⟩, rfl, rfl, rfl, by simp [main]⟩

/-- C7: scenarios are evaluated and reported in ascending sorted order of
their descriptor file names, independently of the order the directory
listing returns them: permuting the listing leaves the whole run output
unchanged, and the evaluation order is a sorted permutation of the
listing. -/
theorem c7_sorted_discovery_order (tok : String → String → Nat)
    (parse : String → Option Scenario) (readF : String → Option String)
    (l1 l2 : List String)
    (hp : l1.Perm l2) :
    main tok parse readF true l1 = main tok parse readF true l2 ∧
    ∃ s : List String, s.Perm l1 ∧
      List.Sorted (fun a b : String => a ≤ b) s ∧
      evaluated_results tok parse readF true l1 = (run_all tok parse readF s).1 := by
  have hsorteq : List.insertionSort (fun a b : String => a ≤ b) l1 =
      List.insertionSort (fun a b : String => a ≤ b) l2 :=
    List.eq_of_perm_of_sorted
      (((List.perm_insertionSort _ l1).trans hp).trans
        (List.perm_insertionSort _ l2).symm)
      (List.sorted_insertionSort _ l1)
      (List.sorted_insertionSort _ l2)
  refine ⟨?_, ⟨List.insertionSort (fun a b : String => a ≤ b) l1,
    List.perm_insertionSort _ l1, List.sorted_insertionSort _ l1, ?_⟩⟩
  · unfold main
    rw [hsorteq]
  · exact evaluated_results_true tok parse readF l1

/-- C8: the exported artifact is a single record at the fixed path
`benchmarks/results.json` containing `results`, the list of evaluated
`ScenarioResult` records, and `summary` with `total_scenarios`, `passed` and
`average_reduction` computed over the evaluated scenarios. -/
theorem c8_export_structure (tok : String → String → Nat)
    (parse : String → Option Scenario) (readF : String → Option String)
    (listing : List String) (p : String) (doc : ExportDoc)
    (h : (main tok parse readF true listing).exported = some (p, doc)) :
    p = "benchmarks/results.json" ∧
    doc.results = evaluated_results tok parse readF true listing ∧
    doc.summary.total_scenarios = doc.results.length ∧
    doc.summary.passed = doc.results.countP (fun r => r.meets_expectation) ∧
    doc.summary.average_reduction =
      (doc.results.map (fun r => r.reduction_percentage)).sum
        / ((doc.results.length : Nat) : Rat) := by
  rw [evaluated_results_true]
  unfold main at h
  simp only [Bool.true_eq_false, if_false] at h
  split at h
  · simp at h
  · split at h
    · simp at h
    · rename_i summ hsumm
      split at h
      · simp at h
      · rename_i doc0 hdoc0
        simp only [Option.some.injEq, Prod.mk.injEq] at h
        obtain ⟨hp2, hd2⟩ := h
        subst hp2
        subst hd2
        obtain ⟨h1, h2, h3, h4⟩ := export_json_ok_inv _ _ hdoc0
        refine ⟨rfl, h1, ?_, ?_, ?_⟩
        · rw [h1]
          exact h2
        · rw [h1]
          exact h3
        · rw [h1]
          exact h4

/-- Witness for C4: one discovered descriptor whose parse fails. -/
theorem c4_witness :
    (["z.json"] : List String) ≠ [] ∧
    (run_all tokW parseNone readW
      (List.insertionSort (fun a b : String => a ≤ b) ["z.json"])).1 = [] ∧
    ((main tokW parseNone readW true ["z.json"]).outcome =
        Outcome.crashed "ZeroDivisionError" ∧
     (main tokW parseNone readW true ["z.json"]).summaryShown = none ∧
     (main tokW parseNone readW true ["z.json"]).exported = none) :=
  ⟨by decide, rfl,
   c4_zero_division_crash tokW parseNone readW ["z.json"] (by decide) rfl⟩

/-- Witness for C5: the scenarios directory does not exist. -/
theorem c5_witness :
    (false = false ∨ (["x.json"] : List String) = []) ∧
    ((∃ c, (main tokW parseNone readW false ["x.json"]).outcome =
        Outcome.exited c ∧ c ≠ 0) ∧
     (main tokW parseNone readW false ["x.json"]).reportBlocks = none ∧
     (main tokW parseNone readW false ["x.json"]).summaryShown = none ∧
     (main tokW parseNone readW false ["x.json"]).exported = none ∧
     (main tokW parseNone readW false ["x.json"]).errorLog ≠ []) :=
  ⟨Or.inl rfl, c5_fatal_discovery tokW parseNone readW false ["x.json"] (Or.inl rfl)⟩

/-- Witness for C7: the two orders of a two-element listing. -/
theorem c7_witness :
    (["b.json", "a.json"] : List String).Perm ["a.json", "b.json"] ∧
    (main tokW parseNone readW true ["b.json", "a.json"] =
      main tokW parseNone readW true ["a.json", "b.json"] ∧
     ∃ s : List String, s.Perm ["b.json", "a.json"] ∧
       List.Sorted (fun a b : String => a ≤ b) s ∧
       evaluated_results tokW parseNone readW true ["b.json", "a.json"] =
         (run_all tokW parseNone readW s).1) :=
  ⟨List.Perm.swap "a.json" "b.json" [],
   c7_sorted_discovery_order tokW parseNone readW ["b.json", "a.json"] ["a.json", "b.json"]
     (List.Perm.swap "a.json" "b.json" [])⟩

/-- The document exported by the all-pass single-scenario run used as the C8
witness. -/
def docW : ExportDoc := ⟨[resEmpty], ⟨1, 1, 0⟩⟩

/-- The concrete run of `main` over the single descriptor `"a.json"` exports
`docW` at the fixed output path. -/
theorem main_export_W :
    (main tokW parseSkip readW true ["a.json"]).exported =
      some ("benchmarks/results.json", docW) := by
  have h1 : List.insertionSort (fun a b : String => a ≤ b) ["a.json"] = ["a.json"] := rfl
  have h2 : run_all tokW parseSkip readW ["a.json"] = ([resEmpty], []) := by
    simp [run_all, run_scenario_E]
  have h3 : print_results [resEmpty] = Except.ok ⟨1, 1, 0⟩ := by
    norm_num [print_results, pyDiv, Bind.bind, Except.bind, resEmpty]
  have h4 : export_json [resEmpty] = Except.ok docW := by
    norm_num [export_json, pyDiv, Bind.bind, Except.bind, resEmpty, docW]
  unfold main
  rw [if_neg (by simp : ¬(true = false))]
  rw [h1]
  rw [if_neg (by simp : ¬((["a.json"] : List String).isEmpty = true))]
  simp only [h2, h3, h4]

/-- Witness for C8 at the concrete all-pass run. -/
theorem c8_witness :
    (main tokW parseSkip readW true ["a.json"]).exported =
      some ("benchmarks/results.json", docW) ∧
    ("benchmarks/results.json" = "benchmarks/results.json" ∧
     docW.results = evaluated_results tokW parseSkip readW true ["a.json"] ∧
     docW.summary.total_scenarios = docW.results.length ∧
     docW.summary.passed = docW.results.countP (fun r => r.meets_expectation) ∧
     docW.summary.average_reduction =
       (docW.results.map (fun r => r.reduction_percentage)).sum
         / ((docW.results.length : Nat) : Rat)) :=
  ⟨main_export_W,
   c8_export_structure tokW parseSkip readW ["a.json"] "benchmarks/results.json" docW
     main_export_W⟩

end Benchmarks
